import Mathlib

/-!
Verification of the Quote Fetcher core of the Stock-Market dashboard
(`app.py`).  The Lean definitions below are a shallow embedding of the
module-level configuration (`API_KEY`), the cached fetch routine
`get_stock_data(symbol, interval='5min')`, and the `@st.cache_data(ttl=3600)`
memoization wrapper around it.  JSON payloads are modelled as association
lists of top-level keys; the network is an oracle mapping a request URL to an
HTTP result.
-/

namespace StockMarket

/-- `app.py` line 10: the module-level credential, assigned as a string
literal in the shipped source. -/
def API_KEY : String := "IOPOMGZYQH86ES0Z"

/-- `app.py` line 16: the default value of the `interval` parameter of
`get_stock_data`. -/
def DEFAULT_INTERVAL : String := "5min"

/-- `app.py` line 15: the `ttl=3600` argument of the cache decorator. -/
def TTL : Nat := 3600

/-- The guard of `app.py` line 18: `not API_KEY or API_KEY == 'IOPOMGZYQH86ES0Z'`.
An empty Python string is falsy, so `not API_KEY` means the key is empty. -/
def apiKeyMissing (key : String) : Bool :=
  key == "" || key == "IOPOMGZYQH86ES0Z"

/-- One value object of the provider's time series: the raw (string-typed)
fields `"1. open"`, `"2. high"`, `"3. low"`, `"4. close"`, `"5. volume"`,
already renamed to the bare column names of `app.py` lines 49-55. -/
structure RawBar where
  «open» : String
  high : String
  low : String
  close : String
  volume : String
deriving DecidableEq, Repr

/-- A top-level JSON value as far as `get_stock_data` inspects it: either a
string (the `"Error Message"` / `"Note"` payloads), a time-series object
mapping timestamp strings to bars, or anything else. -/
inductive JsonVal where
  | str : String → JsonVal
  | series : List (String × RawBar) → JsonVal
  | other : JsonVal
deriving DecidableEq, Repr

/-- A parsed JSON body: the association list of top-level keys, in insertion
order (Python dicts preserve it; duplicate raw JSON keys are collapsed
last-wins by the JSON parser before this routine ever sees them). -/
abbrev Payload := List (String × JsonVal)

/-- Membership test `key in data` on a Python dict. -/
def lookupVal : Payload → String → Option JsonVal
  | [], _ => none
  | (k, v) :: rest, key => if k = key then some v else lookupVal rest key

/-- `key in data` as a Boolean, as the `if` conditions of lines 31-34 use it. -/
def hasKey (data : Payload) (key : String) : Bool :=
  (lookupVal data key).isSome

/-- Does the character list start with the given pattern? -/
def charsStartWith : List Char → List Char → Bool
  | [], _ => true
  | _ :: _, [] => false
  | p :: ps, c :: cs => p == c && charsStartWith ps cs

/-- Does the character list contain the pattern as a contiguous run?  This is
Python's substring operator `pat in s` on strings, used at line 42 as
`"Time Series" in key`. -/
def charsContain (pat : List Char) : List Char → Bool
  | [] => pat.isEmpty
  | c :: cs => charsStartWith pat (c :: cs) || charsContain pat cs

/-- Python's `pat in s` substring test on `String`. -/
def strContainsSub (s pat : String) : Bool :=
  charsContain pat.data s.data

/-- Whitespace characters stripped by numeric/date coercion. -/
def isSpaceChar (c : Char) : Bool :=
  c == ' ' || c == '\t' || c == '\n' || c == '\r'

/-- Drop leading whitespace from a character list. -/
def dropLeadingSpace : List Char → List Char
  | [] => []
  | c :: cs => if isSpaceChar c then dropLeadingSpace cs else c :: cs

/-- Strip whitespace from both ends of a character list. -/
def trimChars (cs : List Char) : List Char :=
  (dropLeadingSpace (dropLeadingSpace cs.reverse)).reverse

/-- Split a character list on a separator character. -/
def splitChars (sep : Char) : List Char → List (List Char)
  | [] => [[]]
  | c :: cs =>
    let r := splitChars sep cs
    if c == sep then [] :: r
    else
      match r with
      | [] => [[c]]
      | g :: gs => (c :: g) :: gs

/-- Parse a non-empty all-digit character list as a natural number. -/
def digitsToNat : List Char → Option Nat
  | [] => none
  | cs =>
    if cs.all Char.isDigit then
      some (cs.foldl (fun a c => a * 10 + (c.toNat - 48)) 0)
    else none

/-- A parsed date-time, the index type produced by `pd.to_datetime` at
line 57 (to second precision, which is all the provider emits). -/
structure Timestamp where
  year : Nat
  month : Nat
  day : Nat
  hour : Nat
  minute : Nat
  second : Nat
deriving DecidableEq, Repr

/-- Total order key for timestamps (lexicographic through the fields; the
factors strictly bound each field's validated range). -/
def tsKey (t : Timestamp) : Nat :=
  ((((t.year * 13 + t.month) * 32 + t.day) * 24 + t.hour) * 60 + t.minute) * 60
    + t.second

/-- `pd.to_datetime` (line 57) on one provider timestamp string: surrounding
whitespace is ignored and the date/time separator may be a space or an ISO
`T`, so distinct raw strings can normalize to the same parsed timestamp.
Shapes other than `YYYY-MM-DD HH:MM:SS` (or out-of-range fields) fail, and
the failure propagates to the `except Exception` handler of line 63. -/
def parseTimestamp (s : String) : Option Timestamp :=
  let cs := trimChars (s.data.map fun c => if c == 'T' then ' ' else c)
  match splitChars ' ' cs with
  | [d, t] =>
    match splitChars '-' d, splitChars ':' t with
    | [ys, ms, ds], [hs, mis, ss] => do
      let y ← digitsToNat ys
      let mo ← digitsToNat ms
      let da ← digitsToNat ds
      let h ← digitsToNat hs
      let mi ← digitsToNat mis
      let se ← digitsToNat ss
      if 1 ≤ mo ∧ mo ≤ 12 ∧ 1 ≤ da ∧ da ≤ 31 ∧ h ≤ 23 ∧ mi ≤ 59 ∧ se ≤ 59 then
        some ⟨y, mo, da, h, mi, se⟩
      else none
    | _, _ => none
  | _ => none

/-- Python's `float(...)` coercion performed by `df.astype(float)` at
line 56, modelled exactly on the decimal string forms the provider emits
(optional sign, integer part, optional fractional part); any other string
fails and the failure propagates to the `except Exception` handler. -/
def parseRat (s : String) : Option ℚ :=
  let cs := trimChars s.data
  let signed := match cs with
    | '-' :: rest => (true, rest)
    | '+' :: rest => (false, rest)
    | _ => (false, cs)
  match splitChars '.' signed.2 with
  | [ip] => do
    let n ← digitsToNat ip
    some (mkRat (if signed.1 then -(n : Int) else (n : Int)) 1)
  | [ip, fp] =>
    if ip.isEmpty ∧ fp.isEmpty then none
    else do
      let ni ← if ip.isEmpty then pure 0 else digitsToNat ip
      let nf ← if fp.isEmpty then pure 0 else digitsToNat fp
      let den := 10 ^ fp.length
      let num : Int := (ni * den + nf : Nat)
      some (mkRat (if signed.1 then -num else num) den)
  | _ => none

/-- One row of the normalized DataFrame: every column coerced to float
(volume included — it is only truncated to an integer at render time), the
index entry parsed as a date-time. -/
structure QuoteRow where
  timestamp : Timestamp
  «open» : ℚ
  high : ℚ
  low : ℚ
  close : ℚ
  volume : ℚ
deriving DecidableEq, Repr

/-- Coerce one `(timestamp string, raw bar)` entry into a `QuoteRow`;
`none` models the type-coercion exception pandas raises at lines 56-57. -/
def parseRowKV (kv : String × RawBar) : Option QuoteRow := do
  let t ← parseTimestamp kv.1
  let o ← parseRat kv.2.«open»
  let h ← parseRat kv.2.high
  let l ← parseRat kv.2.low
  let c ← parseRat kv.2.close
  let v ← parseRat kv.2.volume
  some ⟨t, o, h, l, c, v⟩

/-- Coerce every entry of the time-series object; the whole conversion fails
as soon as any entry fails, exactly as `df.astype(float)` /
`pd.to_datetime(df.index)` raise on the first bad value (all-or-nothing). -/
def parseRows : List (String × RawBar) → Option (List QuoteRow)
  | [] => some []
  | kv :: rest =>
    match parseRowKV kv, parseRows rest with
    | some r, some rs => some (r :: rs)
    | _, _ => none

/-- Row order `a ≤ b` on parsed timestamps, the sort key of line 58. -/
def rowLe (a b : QuoteRow) : Prop :=
  tsKey a.timestamp ≤ tsKey b.timestamp

instance : DecidableRel rowLe :=
  fun a b => Nat.decLe (tsKey a.timestamp) (tsKey b.timestamp)

instance : IsTotal QuoteRow rowLe :=
  ⟨fun a b => Nat.le_total (tsKey a.timestamp) (tsKey b.timestamp)⟩

instance : IsTrans QuoteRow rowLe := ⟨fun _ _ _ => Nat.le_trans⟩

/-- `df.sort_index(ascending=True)` at line 58: sort the rows ascending by
parsed timestamp.  Rows with equal timestamps are all retained — sorting a
pandas index does not de-duplicate it. -/
def sort_index (rows : List QuoteRow) : List QuoteRow :=
  List.insertionSort rowLe rows

/-- The observable outcome of one invocation of `get_stock_data`'s body:
either the normalized DataFrame, or which of the `st.error`/`st.warning`
branches ran before `return None`. -/
inductive FetchOutcome where
  /-- Lines 47-59: the normalized, sorted DataFrame is returned. -/
  | series : List QuoteRow → FetchOutcome
  /-- Lines 18-20: the API-key guard fired; `None` returned, no request. -/
  | keyMissing : FetchOutcome
  /-- Line 32-33: payload carried `"Error Message"`; its value is shown. -/
  | providerError : JsonVal → FetchOutcome
  /-- Line 34-35: payload carried `"Note"`; its value is shown. -/
  | rateLimitNote : JsonVal → FetchOutcome
  /-- Line 36-37: neither time-series key nor error fields; raw payload shown. -/
  | unexpectedResponse : Payload → FetchOutcome
  /-- Lines 43-45: no key containing `"Time Series"` found by the scan. -/
  | tsKeyNotFound : FetchOutcome
  /-- Lines 60-62: `requests` raised (bad status, connection error, timeout). -/
  | networkError : FetchOutcome
  /-- Lines 63-65: the generic `except Exception` handler (coercion failure). -/
  | processingError : FetchOutcome
deriving DecidableEq, Repr

/-- The value `get_stock_data` returns to its caller: the DataFrame on the
`.series` outcome, Python `None` on every other branch. -/
def returnedSeries : FetchOutcome → Option (List QuoteRow)
  | .series rows => some rows
  | _ => none

/-- Lines 48-58: build the DataFrame from the time-series object, coerce
every column to float and the index to date-times, and sort ascending. -/
def buildSeries (ts : List (String × RawBar)) : FetchOutcome :=
  match parseRows ts with
  | none => .processingError
  | some rows => .series (sort_index rows)

/-- Lines 31-59: what `get_stock_data` does with a successfully parsed JSON
body.  Note the fixed-key membership test `"Time Series (5min)" not in data`
at line 31 runs before the dynamic `"Time Series"`-substring scan of
line 42. -/
def processPayload (data : Payload) : FetchOutcome :=
  if ¬ hasKey data "Time Series (5min)" then
    if hasKey data "Error Message" then
      .providerError ((lookupVal data "Error Message").getD .other)
    else if hasKey data "Note" then
      .rateLimitNote ((lookupVal data "Note").getD .other)
    else
      .unexpectedResponse data
  else
    match data.find? (fun kv => strContainsSub kv.1 "Time Series") with
    | none => .tsKeyNotFound
    | some (_, JsonVal.series ts) => buildSeries ts
    | some (_, _) => .processingError

/-- The provider's answer to one HTTP GET, as `requests.get` surfaces it:
a JSON body on 2xx, an `HTTPError` from `raise_for_status()` on a bad
status, or a transport-level `RequestException`. -/
inductive HttpResult where
  | ok : Payload → HttpResult
  | httpError : Nat → HttpResult
  | transportError : HttpResult
deriving DecidableEq, Repr

/-- The network oracle: what one GET of a given URL returns. -/
abbrev Http := String → HttpResult

/-- Line 24: the f-string building the provider request URL. -/
def buildUrl (symbol interval apiKey : String) : String :=
  "https://www.alphavantage.co/query?function=TIME_SERIES_INTRADAY&symbol="
    ++ symbol ++ "&interval=" ++ interval ++ "&outputsize=compact&apikey="
    ++ apiKey

/-- Result of one (uncached) call of `get_stock_data`: the outcome plus the
list of request URLs issued during the call. -/
structure FetchResult where
  outcome : FetchOutcome
  requests : List String
deriving DecidableEq, Repr

/-- `app.py` lines 16-65: the body of `get_stock_data(symbol, interval)`,
parameterized by the module-level `API_KEY` value and the network oracle.
The guard of line 18 returns before any URL is built; otherwise exactly one
GET is issued (no retry) and its result is classified. -/
def get_stock_data (apiKey : String) (http : Http)
    (symbol interval : String) : FetchResult :=
  if apiKeyMissing apiKey then
    { outcome := .keyMissing, requests := [] }
  else
    let url := buildUrl symbol interval apiKey
    match http url with
    | .httpError _ => { outcome := .networkError, requests := [url] }
    | .transportError => { outcome := .networkError, requests := [url] }
    | .ok data => { outcome := processPayload data, requests := [url] }

/-- The cache key of `@st.cache_data`: the argument tuple of
`get_stock_data`, that is `(symbol, interval)`. -/
abbrev CacheKey := String × String

/-- The memoization store of `@st.cache_data(ttl=3600)`: each entry maps an
argument tuple to the value the function returned, together with the time it
was stored.  The cached value is whatever the function returned — `None`
included. -/
abbrev Cache := List (CacheKey × (FetchOutcome × Nat))

/-- Look up an argument tuple in the cache. -/
def lookupCache : Cache → CacheKey → Option (FetchOutcome × Nat)
  | [], _ => none
  | (k, v) :: rest, key => if k = key then some v else lookupCache rest key

/-- Store a freshly computed value; a newer entry for the same key shadows
any older one. -/
def insertCache (c : Cache) (key : CacheKey) (v : FetchOutcome × Nat) : Cache :=
  (key, v) :: c

/-- Is a cache entry stored at time `t` still fresh at time `now`?  The
decorator's `ttl=3600` makes an entry valid for one hour from storage. -/
def cacheFresh (t now : Nat) : Bool :=
  now - t < TTL

/-- One call of the decorated `get_stock_data` at wall-clock time `now`:
on a fresh cached entry the stored value is returned with no network
activity; otherwise the body runs and its return value (series or `None`)
is stored with timestamp `now`. -/
def cachedFetch (apiKey : String) (http : Http) (c : Cache) (now : Nat)
    (symbol interval : String) : FetchOutcome × Cache × List String :=
  match lookupCache c (symbol, interval) with
  | some (v, t) =>
    if cacheFresh t now then (v, c, [])
    else
      let r := get_stock_data apiKey http symbol interval
      (r.outcome, insertCache c (symbol, interval) (r.outcome, now), r.requests)
  | none =>
    let r := get_stock_data apiKey http symbol interval
    (r.outcome, insertCache c (symbol, interval) (r.outcome, now), r.requests)

/-- Run a sequence of dashboard interactions, each a
`(time, symbol, interval)` triple, threading the cache; returns the outcome
of each call, the final cache and every request URL issued. -/
def runFetches (apiKey : String) (http : Http) :
    Cache → List (Nat × String × String) →
      List FetchOutcome × Cache × List String
  | c, [] => ([], c, [])
  | c, (now, s, i) :: rest =>
    let r := cachedFetch apiKey http c now s i
    let rs := runFetches apiKey http r.2.1 rest
    (r.1 :: rs.1, rs.2.1, r.2.2 ++ rs.2.2)

/-- Strict row order on parsed timestamps, for stating strict sortedness. -/
def rowLt (a b : QuoteRow) : Prop :=
  tsKey a.timestamp < tsKey b.timestamp

/-- A successful provider body: the single interval-specific time-series
key, here for the default 5-minute granularity. -/
def validPayload (ts : List (String × RawBar)) : Payload :=
  [("Time Series (5min)", JsonVal.series ts)]

/-- Is an HTTP result a transport- or status-level failure (anything
`requests.get` + `raise_for_status()` turns into an exception)? -/
def isHttpFailure : HttpResult → Bool
  | .ok _ => false
  | .httpError _ => true
  | .transportError => true

/-- The raw bar of the spec's concrete round-trip scenario. -/
def scenarioBar : RawBar :=
  { «open» := "10.0", high := "10.5", low := "9.8", close := "10.2"
    volume := "1000" }

/-- The spec's concrete one-entry scenario payload. -/
def scenarioPayload : Payload :=
  validPayload [("2024-01-02 09:35:00", scenarioBar)]

/-- A well-formed provider body for a 15-minute interval: same bar, but the
top-level key carries the 15min suffix. -/
def payload15min : Payload :=
  [("Time Series (15min)", JsonVal.series [("2024-01-02 09:35:00", scenarioBar)])]

/-- Two raw entries whose timestamp strings differ (space vs. ISO `T`
separator) but normalize to the same parsed timestamp. -/
def dupEntries : List (String × RawBar) :=
  [("2024-01-02 09:35:00", { «open» := "1", high := "1", low := "1", close := "1", volume := "1" }),
   ("2024-01-02T09:35:00", { «open» := "2", high := "2", low := "2", close := "2", volume := "2" })]

/-- The duplicate-timestamp payload of the spec's last concrete scenario. -/
def dupPayload : Payload := validPayload dupEntries

/-- An error body from the provider. -/
def errPayload : Payload := [("Error Message", JsonVal.str "Invalid API call.")]

/-- A rate-limit advisory body from the provider. -/
def notePayload : Payload := [("Note", JsonVal.str "API call frequency exceeded.")]

/-- A body matching none of the known shapes. -/
def weirdPayload : Payload := [("something", JsonVal.str "else")]

/-- Two well-formed entries with distinct timestamps, listed descending as
the provider returns them. -/
def wellFormedEntries : List (String × RawBar) :=
  [("2024-01-02 09:40:00", { «open» := "11.0", high := "11.5", low := "10.8", close := "11.2", volume := "500" }),
   ("2024-01-02 09:35:00", scenarioBar)]

/-- `wellFormedEntries` with the volume of the second entry corrupted. -/
def corruptEntries : List (String × RawBar) :=
  [("2024-01-02 09:40:00", { «open» := "11.0", high := "11.5", low := "10.8", close := "11.2", volume := "500" }),
   ("2024-01-02 09:35:00", { «open» := "10.0", high := "10.5", low := "9.8", close := "10.2", volume := "abc" })]

/-- The Quote Row the spec's concrete scenario expects. -/
def scenarioRow : QuoteRow :=
  { timestamp := ⟨2024, 1, 2, 9, 35, 0⟩, «open» := 10, high := mkRat 21 2
    low := mkRat 49 5, close := mkRat 51 5, volume := 1000 }

/-- The coerced rows of `wellFormedEntries`, in payload order. -/
def wellFormedRows : List QuoteRow :=
  [{ timestamp := ⟨2024, 1, 2, 9, 40, 0⟩, «open» := 11, high := mkRat 23 2
     low := mkRat 54 5, close := mkRat 56 5, volume := 500 },
   scenarioRow]

/-- A credential that passes the guard of line 18, for exercising the
post-guard code paths. -/
def testKey : String := "TESTKEY123"

/-- A network oracle that always answers with the scenario body. -/
def httpOkOracle : Http := fun _ => .ok scenarioPayload

/-- A network oracle that always answers 429 Too Many Requests. -/
def http429Oracle : Http := fun _ => .httpError 429

/-! ## General lemmas about the embedding -/

/-- Coercion is per-entry: a successful conversion has one row per entry. -/
theorem parseRows_length {ts : List (String × RawBar)} {rows : List QuoteRow}
    (h : parseRows ts = some rows) : rows.length = ts.length := by
  induction ts generalizing rows with
  | nil =>
    simp only [parseRows, Option.some.injEq] at h
    simp [← h]
  | cons kv rest ih =>
    simp only [parseRows] at h
    cases h1 : parseRowKV kv with
    | none => rw [h1] at h; exact absurd h (by simp)
    | some r =>
      cases h2 : parseRows rest with
      | none => rw [h1, h2] at h; exact absurd h (by simp)
      | some rs =>
        rw [h1, h2] at h
        simp only [Option.some.injEq] at h
        simp [← h, ih h2]

/-- Coercion is all-or-nothing: one bad entry fails the whole conversion. -/
theorem parseRows_eq_none_of_mem {ts : List (String × RawBar)}
    {kv : String × RawBar} (hm : kv ∈ ts) (hf : parseRowKV kv = none) :
    parseRows ts = none := by
  induction ts with
  | nil => cases hm
  | cons a rest ih =>
    rcases List.mem_cons.mp hm with h | h
    · subst h
      simp only [parseRows, hf]
    · simp only [parseRows, ih h]
      cases parseRowKV a <;> rfl

/-- The substring scan of line 42 matches the 5-minute key. -/
theorem tsSubMatch : strContainsSub "Time Series (5min)" "Time Series" = true := by
  decide

/-- On a well-shaped provider body the guard of line 31 passes and the scan
of line 42 selects the (unique) time-series key, so `get_stock_data` goes on
to normalize its entries. -/
theorem processPayload_validPayload (ts : List (String × RawBar)) :
    processPayload (validPayload ts) = buildSeries ts := by
  simp [processPayload, validPayload, hasKey, lookupVal, List.find?, tsSubMatch]

/-- Sorting preserves multiplicity (it is a permutation). -/
theorem sort_index_perm (rows : List QuoteRow) :
    List.Perm (sort_index rows) rows :=
  List.perm_insertionSort rowLe rows

/-- The sort of line 58 produces an ascending row list. -/
theorem sort_index_sorted (rows : List QuoteRow) :
    List.Sorted rowLe (sort_index rows) :=
  List.sorted_insertionSort rowLe rows

/-- An ascending row list whose timestamps are pairwise distinct is strictly
ascending. -/
theorem pairwise_lt_of_sorted_nodup {l : List QuoteRow}
    (h1 : List.Sorted rowLe l)
    (h2 : (l.map fun r => tsKey r.timestamp).Nodup) :
    List.Pairwise rowLt l := by
  rw [List.Nodup, List.pairwise_map] at h2
  have h1' : List.Pairwise rowLe l := h1
  exact (h1'.and h2).imp fun h => Nat.lt_of_le_of_ne h.1 h.2

/-! ## The claims -/

/-- C1: for every symbol and interval, `get_stock_data` returns `None`
without issuing any network call: the guard at line 18 compares `API_KEY`
against the very literal it is assigned at line 10, so the key-not-set
error branch is taken unconditionally before the HTTP request is built. -/
theorem C1_guard_short_circuits (http : Http) (symbol interval : String) :
    apiKeyMissing API_KEY = true ∧
    get_stock_data API_KEY http symbol interval =
      { outcome := .keyMissing, requests := [] } ∧
    returnedSeries (get_stock_data API_KEY http symbol interval).outcome =
      none := by
  have h : apiKeyMissing API_KEY = true := by decide
  exact ⟨h, by simp [get_stock_data, h], by simp [get_stock_data, h, returnedSeries]⟩

/-- C2 (divergence at the failing input): a well-formed provider body for a
15-minute interval — whose key the substring scan of line 42 would find,
and whose entries coerce cleanly — is nevertheless rejected by the
fixed-key guard of line 31 and classified as an unexpected response, so no
Quote Series is produced. -/
theorem C2_fixed_key_guard_rejects_15min :
    processPayload payload15min = .unexpectedResponse payload15min ∧
    (payload15min.find? fun kv => strContainsSub kv.1 "Time Series").isSome =
      true ∧
    parseRows [("2024-01-02 09:35:00", scenarioBar)] ≠ none :=
  ⟨by decide, by decide, by decide⟩

/-- C3 (counterexample): two raw entries differing only in their date-time
separator normalize to the same parsed timestamp, yet the returned series
keeps both rows — the claimed keep-exactly-one / last-seen-wins
de-duplication does not happen, and the result is not strictly ascending. -/
theorem C3_duplicate_timestamps_retained :
    (returnedSeries (processPayload dupPayload)).map List.length = some 2 ∧
    (returnedSeries (processPayload dupPayload)).map
        (List.map fun r => r.timestamp) =
      some [⟨2024, 1, 2, 9, 35, 0⟩, ⟨2024, 1, 2, 9, 35, 0⟩] :=
  ⟨by decide, by decide⟩

/-- C3 (amended): for every valid provider payload the returned Quote
Series is sorted ascending by parsed timestamp, and strictly so when the
parsed timestamps are pairwise distinct; but no de-duplication is
performed: every raw entry keeps its own row, so entries normalizing to the
same parsed timestamp yield duplicate timestamps in the series. -/
theorem C3_sorted_no_dedup (ts : List (String × RawBar))
    (rows : List QuoteRow) (h : parseRows ts = some rows) :
    processPayload (validPayload ts) = .series (sort_index rows) ∧
    List.Sorted rowLe (sort_index rows) ∧
    (sort_index rows).length = ts.length ∧
    ((rows.map fun r => tsKey r.timestamp).Nodup →
      List.Pairwise rowLt (sort_index rows)) := by
  refine ⟨?_, sort_index_sorted rows, ?_, ?_⟩
  · rw [processPayload_validPayload]
    simp only [buildSeries, h]
  · rw [(sort_index_perm rows).length_eq]
    exact parseRows_length h
  · intro hnd
    have hperm :
        List.Perm (List.map (fun r => tsKey r.timestamp) (sort_index rows))
          (List.map (fun r => tsKey r.timestamp) rows) :=
      List.Perm.map _ (sort_index_perm rows)
    exact pairwise_lt_of_sorted_nodup (sort_index_sorted rows)
      (hperm.nodup_iff.mpr hnd)

/-- C3 witness: the amended statement at a concrete two-entry payload. -/
theorem C3_sorted_no_dedup_witness :
    processPayload (validPayload wellFormedEntries) =
      .series (sort_index wellFormedRows) ∧
    List.Sorted rowLe (sort_index wellFormedRows) ∧
    (sort_index wellFormedRows).length = wellFormedEntries.length ∧
    ((wellFormedRows.map fun r => tsKey r.timestamp).Nodup →
      List.Pairwise rowLt (sort_index wellFormedRows)) :=
  C3_sorted_no_dedup wellFormedEntries wellFormedRows (by decide)

/-- C4: a payload lacking the `"Time Series (5min)"` key is classified into
exactly one of the three failure branches of lines 32-38: an
`"Error Message"` key yields the provider-error branch carrying the
provider's message, otherwise a `"Note"` key yields the rate-limit branch,
and with neither the raw payload is surfaced as an unexpected response; in
every case no Quote Series is returned. -/
theorem C4_error_classification (data : Payload)
    (hts : hasKey data "Time Series (5min)" = false) :
    returnedSeries (processPayload data) = none ∧
    (∀ v, lookupVal data "Error Message" = some v →
      processPayload data = .providerError v) ∧
    (lookupVal data "Error Message" = none →
      ∀ v, lookupVal data "Note" = some v →
        processPayload data = .rateLimitNote v) ∧
    (lookupVal data "Error Message" = none →
      lookupVal data "Note" = none →
        processPayload data = .unexpectedResponse data) := by
  have hts' : lookupVal data "Time Series (5min)" = none := by
    cases hx : lookupVal data "Time Series (5min)" with
    | none => rfl
    | some v => rw [hasKey, hx] at hts; simp at hts
  refine ⟨?_, ?_, ?_, ?_⟩
  · by_cases h1 : hasKey data "Error Message" <;>
      by_cases h2 : hasKey data "Note" <;>
        simp [processPayload, hasKey, hts', h1, h2, returnedSeries] <;>
          simp [hasKey] at h1 h2 <;> simp [h1, h2, returnedSeries]
  · intro v hv
    simp [processPayload, hasKey, hts', hv]
  · intro he v hv
    simp [processPayload, hasKey, hts', he, hv]
  · intro he hn
    simp [processPayload, hasKey, hts', he, hn]

/-- C4 witness: the classification at three concrete payloads. -/
theorem C4_error_classification_witness :
    processPayload errPayload = .providerError (.str "Invalid API call.") ∧
    processPayload notePayload =
      .rateLimitNote (.str "API call frequency exceeded.") ∧
    processPayload weirdPayload = .unexpectedResponse weirdPayload :=
  ⟨(C4_error_classification errPayload (by decide)).2.1 _ (by decide),
   (C4_error_classification notePayload (by decide)).2.2.1 (by decide) _
     (by decide),
   (C4_error_classification weirdPayload (by decide)).2.2.2 (by decide)
     (by decide)⟩

/-- C5 (counterexample): with a guard-passing key and a provider returning
HTTP 429, the first fetch fails with the network-error branch, but the
`None` return value is stored by the memoization decorator: a second fetch
for the same (symbol, interval) ten seconds later issues no request and is
served the cached failure, and the cache is not left unchanged. -/
theorem C5_failure_is_cached :
    (runFetches testKey http429Oracle []
        [(0, "AAPL", "5min"), (10, "AAPL", "5min")]).1 =
      [.networkError, .networkError] ∧
    (runFetches testKey http429Oracle []
        [(0, "AAPL", "5min"), (10, "AAPL", "5min")]).2.2 =
      [buildUrl "AAPL" "5min" testKey] ∧
    (runFetches testKey http429Oracle []
        [(0, "AAPL", "5min"), (10, "AAPL", "5min")]).2.1 ≠ [] :=
  ⟨by decide, by decide, by decide⟩

/-- C5 (amended): on any HTTP-level failure (non-2xx status, connection
error or timeout) the fetch signals the network-error branch, returns no
Quote Series, and issues exactly one request (no retry); however the `None`
failure result is stored in the cache like any return value, so a
subsequent fetch for the same (symbol, interval) within the TTL is served
the cached failure without a new network call. -/
theorem C5_network_error_cached (apiKey symbol interval : String)
    (http : Http) (c : Cache) (t t' : Nat)
    (hkey : apiKeyMissing apiKey = false)
    (hfail : isHttpFailure (http (buildUrl symbol interval apiKey)) = true)
    (hmiss : lookupCache c (symbol, interval) = none)
    (hfresh : t' - t < TTL) :
    (get_stock_data apiKey http symbol interval).outcome = .networkError ∧
    returnedSeries (get_stock_data apiKey http symbol interval).outcome =
      none ∧
    (get_stock_data apiKey http symbol interval).requests =
      [buildUrl symbol interval apiKey] ∧
    cachedFetch apiKey http c t symbol interval =
      (.networkError,
        insertCache c (symbol, interval) (.networkError, t),
        [buildUrl symbol interval apiKey]) ∧
    cachedFetch apiKey http
        (insertCache c (symbol, interval) (.networkError, t)) t'
        symbol interval =
      (.networkError,
        insertCache c (symbol, interval) (.networkError, t), []) := by
  have hgsd : get_stock_data apiKey http symbol interval =
      { outcome := .networkError
        requests := [buildUrl symbol interval apiKey] } := by
    cases hx : http (buildUrl symbol interval apiKey) with
    | ok data => simp [hx, isHttpFailure] at hfail
    | httpError code => simp [get_stock_data, hkey, hx]
    | transportError => simp [get_stock_data, hkey, hx]
  refine ⟨by rw [hgsd], by rw [hgsd]; rfl, by rw [hgsd], ?_, ?_⟩
  · simp [cachedFetch, hmiss, hgsd]
  · simp [cachedFetch, insertCache, lookupCache, cacheFresh, hfresh]

/-- C5 witness: the amended statement at concrete inputs. -/
theorem C5_network_error_cached_witness :
    (get_stock_data testKey http429Oracle "AAPL" "5min").outcome =
      .networkError ∧
    returnedSeries
        (get_stock_data testKey http429Oracle "AAPL" "5min").outcome =
      none ∧
    (get_stock_data testKey http429Oracle "AAPL" "5min").requests =
      [buildUrl "AAPL" "5min" testKey] ∧
    cachedFetch testKey http429Oracle [] 0 "AAPL" "5min" =
      (.networkError,
        insertCache [] ("AAPL", "5min") (.networkError, 0),
        [buildUrl "AAPL" "5min" testKey]) ∧
    cachedFetch testKey http429Oracle
        (insertCache [] ("AAPL", "5min") (.networkError, 0)) 10
        "AAPL" "5min" =
      (.networkError, insertCache [] ("AAPL", "5min") (.networkError, 0),
        []) :=
  C5_network_error_cached testKey "AAPL" "5min" http429Oracle [] 0 10
    (by decide) (by decide) (by decide) (by decide)

/-- C6: starting from an empty cache with a guard-passing key and a
successful provider response, two fetches for the same (symbol, interval)
within the one-hour freshness window issue exactly one network call and
both return the Quote Series (the second from the cache); a third fetch
after the window elapses issues a second network call. -/
theorem C6_cache_single_network_call (apiKey symbol interval : String)
    (http : Http) (data : Payload) (rows : List QuoteRow) (t0 t1 t2 : Nat)
    (hkey : apiKeyMissing apiKey = false)
    (hok : http (buildUrl symbol interval apiKey) = .ok data)
    (hser : processPayload data = .series rows)
    (hfresh : t1 - t0 < TTL)
    (hstale : TTL ≤ t2 - t0) :
    (runFetches apiKey http []
        [(t0, symbol, interval), (t1, symbol, interval)]).1 =
      [.series rows, .series rows] ∧
    (runFetches apiKey http []
        [(t0, symbol, interval), (t1, symbol, interval)]).2.2 =
      [buildUrl symbol interval apiKey] ∧
    (runFetches apiKey http []
        [(t0, symbol, interval), (t1, symbol, interval),
          (t2, symbol, interval)]).2.2 =
      [buildUrl symbol interval apiKey, buildUrl symbol interval apiKey] := by
  have hgsd : get_stock_data apiKey http symbol interval =
      { outcome := .series rows
        requests := [buildUrl symbol interval apiKey] } := by
    simp [get_stock_data, hkey, hok, hser]
  have hstale' : ¬ (t2 - t0 < TTL) := Nat.not_lt.mpr hstale
  refine ⟨?_, ?_, ?_⟩ <;>
    simp [runFetches, cachedFetch, lookupCache, insertCache, cacheFresh,
      hgsd, hfresh, hstale']

/-- C6 witness: the cache property at concrete inputs, with the third fetch
arriving exactly when the window has elapsed. -/
theorem C6_cache_single_network_call_witness :
    (runFetches testKey httpOkOracle []
        [(0, "AAPL", "5min"), (10, "AAPL", "5min")]).1 =
      [.series [scenarioRow], .series [scenarioRow]] ∧
    (runFetches testKey httpOkOracle []
        [(0, "AAPL", "5min"), (10, "AAPL", "5min")]).2.2 =
      [buildUrl "AAPL" "5min" testKey] ∧
    (runFetches testKey httpOkOracle []
        [(0, "AAPL", "5min"), (10, "AAPL", "5min"), (3600, "AAPL", "5min")]).2.2 =
      [buildUrl "AAPL" "5min" testKey, buildUrl "AAPL" "5min" testKey] :=
  C6_cache_single_network_call testKey "AAPL" "5min" httpOkOracle
    scenarioPayload [scenarioRow] 0 10 3600 (by decide) rfl (by decide)
    (by decide) (by decide)

/-- C7: every valid provider payload whose entries all coerce yields one
Quote Row per entry (a permutation of the coerced rows); and the spec's
concrete one-entry scenario payload yields exactly the Quote Row with
open 10.0, high 10.5, low 9.8, close 10.2, volume 1000 at
2024-01-02T09:35:00. -/
theorem C7_roundtrip :
    (∀ ts rows, parseRows ts = some rows →
      ∃ out, processPayload (validPayload ts) = .series out ∧
        out.length = ts.length ∧ List.Perm out rows) ∧
    processPayload scenarioPayload = .series [scenarioRow] := by
  constructor
  · intro ts rows h
    refine ⟨sort_index rows, ?_, ?_, sort_index_perm rows⟩
    · rw [processPayload_validPayload]
      simp only [buildSeries, h]
    · rw [(sort_index_perm rows).length_eq]
      exact parseRows_length h
  · decide

/-- C7 witness: the universal part at a concrete two-entry payload. -/
theorem C7_roundtrip_witness :
    ∃ out, processPayload (validPayload wellFormedEntries) = .series out ∧
      out.length = wellFormedEntries.length ∧
      List.Perm out wellFormedRows :=
  C7_roundtrip.1 wellFormedEntries wellFormedRows (by decide)

/-- C8: if any time-series entry fails numeric or date coercion, the whole
fetch fails through the generic exception handler of lines 63-65: no
partial Quote Series containing only the well-formed rows is returned. -/
theorem C8_malformed_total_failure (ts : List (String × RawBar))
    (kv : String × RawBar) (hm : kv ∈ ts) (hf : parseRowKV kv = none) :
    processPayload (validPayload ts) = .processingError ∧
    returnedSeries (processPayload (validPayload ts)) = none := by
  have h := parseRows_eq_none_of_mem hm hf
  rw [processPayload_validPayload]
  constructor
  · simp only [buildSeries, h]
  · simp only [buildSeries, h, returnedSeries]

/-- C8 witness: a payload with one well-formed entry and one entry whose
volume fails coercion yields the total failure, not a one-row series. -/
theorem C8_malformed_total_failure_witness :
    processPayload (validPayload corruptEntries) = .processingError ∧
    returnedSeries (processPayload (validPayload corruptEntries)) = none :=
  C8_malformed_total_failure corruptEntries
    ("2024-01-02 09:35:00",
      { «open» := "10.0", high := "10.5", low := "9.8", close := "10.2"
        volume := "abc" })
    (by decide) (by decide)

/-- C9: past the key guard, the fetch issues a single GET whose URL is the
query endpoint with exactly `function=TIME_SERIES_INTRADAY`, the symbol,
the interval, `outputsize=compact` and the key, in that order; when the
caller omits the interval the default is `"5min"`. -/
theorem C9_request_url (symbol interval apiKey : String) (http : Http)
    (hkey : apiKeyMissing apiKey = false) :
    (get_stock_data apiKey http symbol interval).requests =
      [buildUrl symbol interval apiKey] ∧
    (get_stock_data apiKey http symbol DEFAULT_INTERVAL).requests =
      [buildUrl symbol "5min" apiKey] ∧
    buildUrl symbol interval apiKey =
      "https://www.alphavantage.co/query?function=TIME_SERIES_INTRADAY&symbol="
        ++ symbol ++ "&interval=" ++ interval
        ++ "&outputsize=compact&apikey=" ++ apiKey ∧
    buildUrl "IBM" "15min" "SOMEKEY" =
      "https://www.alphavantage.co/query?function=TIME_SERIES_INTRADAY&symbol=IBM&interval=15min&outputsize=compact&apikey=SOMEKEY" := by
  refine ⟨?_, ?_, rfl, by decide⟩ <;>
  · simp only [get_stock_data, hkey, Bool.false_eq_true, if_false]
    cases http (buildUrl symbol _ apiKey) <;> rfl

/-- C9 witness: the request shape at concrete inputs. -/
theorem C9_request_url_witness :
    (get_stock_data testKey httpOkOracle "AAPL" "60min").requests =
      [buildUrl "AAPL" "60min" testKey] ∧
    (get_stock_data testKey httpOkOracle "AAPL" DEFAULT_INTERVAL).requests =
      [buildUrl "AAPL" "5min" testKey] ∧
    buildUrl "AAPL" "60min" testKey =
      "https://www.alphavantage.co/query?function=TIME_SERIES_INTRADAY&symbol="
        ++ "AAPL" ++ "&interval=" ++ "60min"
        ++ "&outputsize=compact&apikey=" ++ testKey ∧
    buildUrl "IBM" "15min" "SOMEKEY" =
      "https://www.alphavantage.co/query?function=TIME_SERIES_INTRADAY&symbol=IBM&interval=15min&outputsize=compact&apikey=SOMEKEY" :=
  C9_request_url "AAPL" "60min" testKey httpOkOracle (by decide)

/-- C10 (counterexample): the access credential is a hard-coded string
literal in the shipped source — `API_KEY` is assigned the literal at
line 10, contradicting the supplied-via-external-configuration claim. -/
theorem C10_key_is_source_literal : API_KEY = "IOPOMGZYQH86ES0Z" := rfl

/-- C10 (amended): the access credential is hard-coded: every request URL
the shipped code would build embeds the source literal
`IOPOMGZYQH86ES0Z`, with no external configuration consulted. -/
theorem C10_hardcoded_key_in_url (symbol interval : String) :
    buildUrl symbol interval API_KEY =
      "https://www.alphavantage.co/query?function=TIME_SERIES_INTRADAY&symbol="
        ++ symbol ++ "&interval=" ++ interval
        ++ "&outputsize=compact&apikey=IOPOMGZYQH86ES0Z" := by
  rw [buildUrl, API_KEY, String.append_assoc]
  rfl

end StockMarket
